import Mathlib

/-!
# Robot entity registry and motion interpolation (`src/js/app/components/robot.js`)

A shallow embedding of the `Robot` class: the scene is the ordered list of
its children, every mesh carries an object identity (`uid`), and the
asynchronous parts (the STL model load started by `create`, the tweens
started by `move`) are explicit queues in the state, advanced by the events
`loadComplete` and `update`.

JavaScript numbers are modelled as rationals.  The interpolation of a tween,
`start + (end - start) * value`, rounds every operation to the nearest
double (`toDouble`), because there the rounding decides which value the mesh
ends with; the other expressions are exact.  The constants that are
not in the source files (`scene_scale`, `Config.arena.*`,
`Config.mixedReality.robots`, `THREE.Math.DEG2RAD`) are fields of `Env`.
Callbacks are opaque to the class, so a call of a callback is recorded as a
signal `(callback identity, argument)`.
-/

namespace Robot

/-- The constant `ROBOT_PREFIX` of robot.js. -/
def ROBOT_PREFIX : String := "robot_"

/-- Configuration read by the class: `scene_scale`, `Config.arena`,
`Config.mixedReality.robots` and `THREE.Math.DEG2RAD`. -/
structure Env where
  scene_scale : ℚ
  minX : ℚ
  maxX : ℚ
  minY : ℚ
  maxY : ℚ
  REALITY : String
  DEG2RAD : ℚ
  deriving DecidableEq

/-- A callback argument of the API: `undefined`, a function of the caller
(identified by a number), or the arrow function that `create` wraps around
its own callback before delegating to `move`. -/
inductive Callback where
  | undefined : Callback
  | fn : Nat → Callback
  | movedInstead : Callback → Callback
  deriving DecidableEq

/-- One observed call of a caller function: which function, which argument. -/
abbrev Signal := Nat × String

/-- Calling a callback value with a message.  The arrow function built by
`create` ignores its argument and calls the wrapped callback, when that one
is defined, with `'already defined, so moved'`. -/
def Callback.call : Callback → String → List Signal
  | .undefined, _ => []
  | .fn k, msg => [(k, msg)]
  | .movedInstead cb, _ =>
      if cb ≠ .undefined then cb.call "already defined, so moved" else []

/-- The guard `if (callback != null) callback(msg)`. -/
def notify (callback : Callback) (msg : String) : List Signal :=
  if callback ≠ .undefined then callback.call msg else []

/-- A mesh in the scene: the fields of `THREE.Mesh` that robot.js writes. -/
structure Node where
  uid : Nat
  name : String
  posX : ℚ
  posY : ℚ
  posZ : ℚ
  rotX : ℚ
  rotY : ℚ
  scale : ℚ
  reality : String
  colorR : ℚ
  colorG : ℚ
  colorB : ℚ
  deriving DecidableEq

/-- A running `TWEEN.Tween` built by `move`: the captured mesh `r`, the
start time (`now + delay`), the duration, the start values read from the
`position` object at `start()`, the values given to `to(...)`, and what the
closures `onUpdate` / `onComplete` captured (`rotationFlag`, `callback`). -/
structure Tween where
  target : Nat
  startTime : ℚ
  duration : ℚ
  x0 : ℚ
  y0 : ℚ
  h0 : ℚ
  x1 : ℚ
  y1 : ℚ
  h1 : ℚ
  rotationFlag : Bool
  callback : Callback
  deriving DecidableEq

/-- A model load started by `create` whose `onLoad` closure has not run yet:
the closure captured `id`, the clamped `x`, `y`, `heading`, `reality` and
`callback`. -/
structure PendingLoad where
  id : String
  x : ℚ
  y : ℚ
  heading : ℚ
  reality : String
  callback : Callback
  deriving DecidableEq

/-- The state the class works on: scene children in order, the tweens
registered with `TWEEN`, the loads in flight, and the next fresh object
identity. -/
structure State where
  children : List Node
  tweens : List Tween
  loading : List PendingLoad
  nextUid : Nat
  deriving DecidableEq

/-- What a method call leaves behind: the new state, the callback calls made
during the call, and the returned mesh (`none` for `undefined`). -/
structure Outcome where
  state : State
  signals : List Signal
  ret : Option Node

/-- The scene before any robot was created. -/
def State.empty : State := ⟨[], [], [], 0⟩

/-- The lookup `scene.getObjectByName(name)`: first child with that name. -/
def getObjectByName (s : State) (name : String) : Option Node :=
  s.children.find? (fun n => n.name = name)

/-- The call `scene.remove(r)`: drops the child that is the object `r`. -/
def sceneRemove (uid : Nat) (children : List Node) : List Node :=
  children.eraseP (fun n => n.uid = uid)

/-- The JavaScript `Math.round`: nearest integer, ties towards +infinity. -/
def mathRound (q : ℚ) : ℚ := (⌊q + 1 / 2⌋ : ℤ)

/-- The expression `Math.min(Math.max(v, lo), hi)`. -/
def clamp (v lo hi : ℚ) : ℚ := min (max v lo) hi

/-- The test `reality === REALITY || REALITY === 'M'`. -/
def compatible (env : Env) (reality : String) : Bool :=
  reality = env.REALITY || env.REALITY = "M"

/-- The method `changeColor(id, R, G, B, ambient, callback)`. -/
def changeColor (s : State) (id : String) (R G B : ℚ) (callback : Callback) : Outcome :=
  match getObjectByName s ( ROBOT_PREFIX ++ id) with
  | some r =>
      let setRGB : Node → Node := fun n =>
        if n.uid = r.uid then { n with colorR := R / 256, colorG := G / 256, colorB := B / 265 }
        else n
      { state := { s with children := s.children.map setRGB },
        signals := notify callback "success",
        ret := some (setRGB r) }
  | none => { state := s, signals := notify callback "undefined", ret := none }

/-- The method `delete(id, callback)`; `id = none` is `undefined` / `null`. -/
def delete (s : State) (id : Option String) (callback : Callback) : Outcome :=
  match id with
  | some id =>
      match getObjectByName s ( ROBOT_PREFIX ++ id) with
      | some r =>
          { state := { s with children := sceneRemove r.uid s.children },
            signals := notify callback "success",
            ret := none }
      | none => { state := s, signals := notify callback "not found", ret := none }
  | none => { state := s, signals := notify callback "id not specified", ret := none }

/-- The test `name.startsWith(ROBOT_PREFIX)`: the characters of the robot
namespace are the first characters of the name. -/
def startsWithRobot (name : String) : Bool :=
  ROBOT_PREFIX.toList.isPrefixOf name.toList

/-- The method `deleteAll()`: `Object.entries(children)` is a snapshot taken
before the loop; each entry of the snapshot whose name carries the robot
namespace is removed from the live children. -/
def deleteAll (s : State) : State :=
  let snapshot := s.children
  let live := snapshot.foldl
    (fun live obj => if startsWithRobot obj.name then sceneRemove obj.uid live else live)
    s.children
  { s with children := live }

/-- The method `exists(id)`. -/
def «exists» (s : State) (id : String) : Option Node :=
  getObjectByName s ( ROBOT_PREFIX ++ id)

/-- The method `get_coordinates(id)`. -/
def get_coordinates (s : State) (id : String) : Option Node :=
  getObjectByName s ( ROBOT_PREFIX ++ id)

/-- The flag `currentHeading * newHeading >= 0`. -/
def rotationFlag (currentHeading newHeading : ℚ) : Bool :=
  decide (currentHeading * newHeading ≥ 0)

/-- The clamped target coordinate of `move`:
`scene_scale * Math.min(Math.max(Math.round(v * 10) / 10, lo), hi)`. -/
def moveTarget (scale v lo hi : ℚ) : ℚ :=
  scale * clamp (mathRound (v * 10) / 10) lo hi

/-- The squared argument of `Math.sqrt` in `move`; the square root is zero
exactly when this is. -/
def distanceSq (x y px py : ℚ) : ℚ := (x - px) ^ 2 + (y - py) ^ 2

/-- The method `move(id, x, y, heading, callback)`, called when the clock
`TWEEN.now()` reads `now`.  The returned mesh is the live object `r`, so on
the rotate-only branch it already carries the new rotation. -/
def move (env : Env) (now : ℚ) (s : State) (id : String) (x y heading : ℚ)
    (callback : Callback) : Outcome :=
  match getObjectByName s ( ROBOT_PREFIX ++ id) with
  | some r =>
      let currentHeading := r.rotY
      let newHeading := (heading - 90) * env.DEG2RAD
      let flag := rotationFlag currentHeading newHeading
      let x' := moveTarget env.scene_scale x env.minX env.maxX
      let y' := moveTarget env.scene_scale y env.minY env.maxY
      let moveTime : ℚ := 1
      if distanceSq x' y' r.posX r.posY ≠ 0 then
        let tween : Tween :=
          { target := r.uid, startTime := now + 50, duration := 1000 * moveTime,
            x0 := r.posX, y0 := r.posY, h0 := r.rotY,
            x1 := x', y1 := y', h1 := newHeading,
            rotationFlag := flag, callback := callback }
        { state := { s with tweens := s.tweens ++ [tween] },
          signals := [],
          ret := some r }
      else
        let setRotation : Node → Node := fun n =>
          if n.uid = r.uid then { n with rotY := newHeading } else n
        { state := { s with children := s.children.map setRotation },
          signals := [],
          ret := some (setRotation r) }
  | none => { state := s, signals := notify callback "undefined", ret := none }

/-- The method `create(id, x, y, heading, reality, callback)`, called when
the clock reads `now`.  It returns the object `r` of its lookup: the live
mesh after the delegated `move`, or the mesh it has just removed. -/
def create (env : Env) (now : ℚ) (s : State) (id : String) (x y heading : ℚ)
    (reality : String) (callback : Callback) : Outcome :=
  match getObjectByName s ( ROBOT_PREFIX ++ id) with
  | none =>
      if compatible env reality then
        let x' := env.scene_scale * clamp x env.minX env.maxX
        let y' := env.scene_scale * clamp y env.minY env.maxY
        let load : PendingLoad :=
          { id := id, x := x', y := y', heading := heading, reality := reality,
            callback := callback }
        { state := { s with loading := s.loading ++ [load] },
          signals := [],
          ret := none }
      else
        { state := s, signals := [], ret := none }
  | some r =>
      if compatible env reality then
        let o := move env now s id x y heading (.movedInstead callback)
        { state := o.state, signals := o.signals, ret := o.ret }
      else
        let o := delete s (some id) .undefined
        { state := o.state, signals := o.signals, ret := some r }

/-- The mesh built by the `onLoad` closure of `create`. -/
def newMesh (env : Env) (uid : Nat) (p : PendingLoad) : Node :=
  { uid := uid, name := ROBOT_PREFIX ++ p.id,
    posX := p.x, posY := p.y, posZ := 0,
    rotX := 90 * env.DEG2RAD, rotY := (p.heading - 90) * env.DEG2RAD,
    scale := env.scene_scale, reality := p.reality,
    colorR := 2 / 5, colorG := 2 / 5, colorB := 2 / 5 }

/-- The event "the model load number `i` finished": its `onLoad` closure
builds the mesh, adds it to the scene and calls the callback. -/
def loadComplete (env : Env) (s : State) (i : Nat) : State × List Signal :=
  match s.loading.get? i with
  | some p =>
      ({ s with children := s.children ++ [newMesh env s.nextUid p],
                loading := s.loading.eraseIdx i,
                nextUid := s.nextUid + 1 },
       if p.callback ≠ .undefined then p.callback.call "success" else [])
  | none => (s, [])

/-- The body of the `onUpdate` closure of `move`, applied to the mesh it
captured: copies the interpolated position, and the interpolated heading
only under `rotationFlag`. -/
def onUpdate (t : Tween) (px py ph : ℚ) (n : Node) : Node :=
  if n.uid = t.target then
    { n with posX := px, posY := py, rotY := if t.rotationFlag then ph else n.rotY }
  else n

/-- The body of the `onComplete` closure of `move`, applied to the mesh it
captured: `r.rotation.y = position.heading`. -/
def onComplete (t : Tween) (ph : ℚ) (n : Node) : Node :=
  if n.uid = t.target then { n with rotY := ph } else n

/-- Rounding to the nearest integer, ties to the even one. -/
def roundHalfEven (q : ℚ) : ℤ :=
  let f := ⌊q⌋
  if q - f < 1 / 2 then f
  else if 1 / 2 < q - f then f + 1
  else if f % 2 = 0 then f else f + 1

/-- The double nearest to `q` (round to nearest, ties to even): 53 bits of
mantissa at the binary exponent of `q`, with the fixed exponent of the
subnormal range at the bottom.  Overflow to `Infinity` is not modelled. -/
def toDouble (q : ℚ) : ℚ :=
  if q = 0 then 0
  else
    let e := max (Int.log 2 |q| - 52) (-1074)
    (roundHalfEven (q / 2 ^ e) : ℚ) * 2 ^ e

/-- Modelled from the spec: the "linear interpolation ... between start and
target" of the tween library, `start + (end - start) * value`, each of the
three operations rounded to a double. -/
def lerp (start target value : ℚ) : ℚ :=
  toDouble (start + toDouble (toDouble (target - start) * value))

/-- Modelled from the spec: the elapsed fraction of a tween of the tween
library (`@tweenjs/tween.js`, not among the source files), "driven by
elapsed time fraction of `duration`" and saturating at 1 once
`elapsed >= duration`. -/
def Tween.progress (t : Tween) (time : ℚ) : ℚ :=
  let elapsed := (time - t.startTime) / t.duration
  if t.duration = 0 ∨ elapsed > 1 then 1 else elapsed

/-- Modelled from the spec: one frame of one tween of the tween library
(not among the source files).  `Pending` until the start delay has
elapsed; then linear interpolation of every tweened value between start
and target followed by the `onUpdate` closure; at fraction 1 the
`onComplete` closure runs once and the tween is dropped (`false`). -/
def Tween.update (t : Tween) (time : ℚ) (children : List Node) :
    List Node × List Signal × Bool :=
  if time < t.startTime then (children, [], true)
  else
    let value := t.progress time
    let px := lerp t.x0 t.x1 value
    let py := lerp t.y0 t.y1 value
    let ph := lerp t.h0 t.h1 value
    let moved := children.map (onUpdate t px py ph)
    if value = 1 then
      (moved.map (onComplete t ph), notify t.callback "success", false)
    else (moved, [], true)

/-- Modelled from the spec: `TWEEN.update()` of the tween library (not
among the source files) advances every registered tween once, in the order
they were started, and keeps the ones that are not completed. -/
def updateAll (time : ℚ) : List Tween → List Node → List Node × List Tween × List Signal
  | [], children => (children, [], [])
  | t :: ts, children =>
      let r := t.update time children
      let rest := updateAll time ts r.1
      (rest.1, if r.2.2 then t :: rest.2.1 else rest.2.1, r.2.1 ++ rest.2.2)

/-- The method `update()` (and the `TWEEN.update()` of the render loop in
main.js), run on a frame at which the clock reads `now`. -/
def update (now : ℚ) (s : State) : State × List Signal :=
  let r := updateAll now s.tweens s.children
  ({ s with children := r.1, tweens := r.2.1 }, r.2.2)

/-- Whatever can happen to the registry: a method call, the completion of a
model load, or a render frame. -/
inductive Action where
  | create (now : ℚ) (id : String) (x y heading : ℚ) (reality : String) (callback : Callback)
  | loadComplete (i : Nat)
  | move (now : ℚ) (id : String) (x y heading : ℚ) (callback : Callback)
  | changeColor (id : String) (R G B : ℚ) (callback : Callback)
  | delete (id : Option String) (callback : Callback)
  | deleteAll
  | update (now : ℚ)

/-- One action on the state, with the callback calls it makes. -/
def step (env : Env) (s : State) : Action → State × List Signal
  | .create now id x y heading reality callback =>
      let o := create env now s id x y heading reality callback
      (o.state, o.signals)
  | .loadComplete i => loadComplete env s i
  | .move now id x y heading callback =>
      let o := move env now s id x y heading callback
      (o.state, o.signals)
  | .changeColor id R G B callback =>
      let o := changeColor s id R G B callback
      (o.state, o.signals)
  | .delete id callback =>
      let o := delete s id callback
      (o.state, o.signals)
  | .deleteAll => (deleteAll s, [])
  | .update now => update now s

/-- The state after a sequence of actions. -/
def run (env : Env) (s : State) (actions : List Action) : State :=
  actions.foldl (fun st a => (step env st a).1) s

/-- The callback calls made along a sequence of actions, in order. -/
def trace (env : Env) : State → List Action → List Signal
  | _, [] => []
  | s, a :: as => (step env s a).2 ++ trace env (step env s a).1 as

/-- The robot stays inside the scaled arena rectangle. -/
def inArena (env : Env) (px py : ℚ) : Prop :=
  env.scene_scale * env.minX ≤ px ∧ px ≤ env.scene_scale * env.maxX ∧
  env.scene_scale * env.minY ≤ py ∧ py ≤ env.scene_scale * env.maxY

/-- An environment for the scenarios: arena 0..10 in both directions, scale
1, virtual robots only, and 71/4068 for the degree-to-radian factor. -/
def arenaEnv : Env := ⟨1, 0, 10, 0, 10, "V", 71 / 4068⟩

/-- The double that JavaScript writes `0.2`. -/
def js0_2 : ℚ := 3602879701896397 / 18014398509481984

/-- The double that JavaScript writes `0.3`. -/
def js0_3 : ℚ := 5404319552844595 / 18014398509481984

/-- The double that JavaScript writes `0.9`. -/
def js0_9 : ℚ := 8106479329266893 / 9007199254740992

/-- The double `0.017453292519943295` of `THREE.Math.DEG2RAD`. -/
def jsDEG2RAD : ℚ := 5030569068109113 / 288230376151711744

/-- The double `-1.5707963267948966`, the rotation `(0 - 90) * DEG2RAD` that
`create` computes for heading 0. -/
def jsRotationOfHeading0 : ℚ := -884279719003555 / 562949953421312

/-- The robot `r1` as `create('r1', 0.2, 0, 0, 'V')` leaves it in doubles: at
(0.2, 0) with rotation -1.5707963267948966, the double of
`(0 - 90) * DEG2RAD`. -/
def restingRobot : Node :=
  ⟨0, "robot_r1", js0_2, 0, 0, -jsRotationOfHeading0, jsRotationOfHeading0, 1, "V",
    2 / 5, 2 / 5, 2 / 5⟩

/-- An arena 0..0.9 in both directions, scale 1, virtual robots only, with
the degree-to-radian factor of three.js. -/
def smallArena : Env := ⟨1, 0, js0_9, 0, js0_9, "V", jsDEG2RAD⟩

/-- The same arena in the mixed-reality mode `'M'`. -/
def mixedEnv : Env := ⟨1, 0, 10, 0, 10, "M", 71 / 4068⟩

/-- The robot `name` standing at `(x, y)` with rotation `rot`, as `create`
builds it in `arenaEnv`. -/
def robotAt (uid : Nat) (name : String) (x y rot : ℚ) : Node :=
  ⟨uid, name, x, y, 0, 90 * (71 / 4068), rot, 1, "V", 2 / 5, 2 / 5, 2 / 5⟩

end Robot

namespace Robot

/-! ## Clamping on creation -/

/-- C1: when no entity with the id exists and the reality kind is compatible
with the environment mode, `create` queues a model load whose completion
adds to the scene a mesh named after the id at the position
`(scale * min(max(x, minX), maxX), scale * min(max(y, minY), maxY))`. -/
theorem create_stores_clamped_position (env : Env) (now : ℚ) (s : State) (id : String)
    (x y heading : ℚ) (reality : String) (callback : Callback)
    (hnew : «exists» s id = none) (hcompat : compatible env reality = true) :
    (create env now s id x y heading reality callback).state.children = s.children ∧
    ∃ n : Node,
      (loadComplete env (create env now s id x y heading reality callback).state
          s.loading.length).1.children = s.children ++ [n] ∧
      n.name = ROBOT_PREFIX ++ id ∧
      n.posX = env.scene_scale * min (max x env.minX) env.maxX ∧
      n.posY = env.scene_scale * min (max y env.minY) env.maxY := by
  unfold «exists» at hnew
  constructor
  · simp [create, hnew, hcompat]
  · simp [create, hnew, hcompat, loadComplete, newMesh, clamp]

/-- C1, the scenario of the spec: arena 0..10, scale 1,
`create('r1', 15, 5, 90, 'V')` stores the position (10, 5). -/
theorem create_stores_clamped_position_witness :
    «exists» State.empty "r1" = none ∧
    compatible ⟨1, 0, 10, 0, 10, "V", 1⟩ "V" = true ∧
    ∃ n : Node,
      (loadComplete ⟨1, 0, 10, 0, 10, "V", 1⟩
          (create ⟨1, 0, 10, 0, 10, "V", 1⟩ 0 State.empty "r1" 15 5 90 "V" .undefined).state
          0).1.children = [n] ∧
      n.posX = 10 ∧ n.posY = 5 := by
  have h := create_stores_clamped_position ⟨1, 0, 10, 0, 10, "V", 1⟩ 0 State.empty "r1"
    15 5 90 "V" .undefined rfl (by decide)
  refine ⟨rfl, by decide, ?_⟩
  obtain ⟨n, h1, _, h3, h4⟩ := h.2
  refine ⟨n, by simpa [State.empty] using h1, ?_, ?_⟩
  · rw [h3]; norm_num
  · rw [h4]; norm_num

/-! ## deleteAll -/

/-- The loop of `deleteAll` over the rest `xs` of the snapshot, when the live
children are the kept entries followed by `xs`. -/
theorem deleteAll_loop (xs kept : List Node)
    (hnodup : ((kept ++ xs).map Node.uid).Nodup) :
    xs.foldl
        (fun live obj => if startsWithRobot obj.name then sceneRemove obj.uid live else live)
        (kept ++ xs)
      = kept ++ xs.filter (fun n => !startsWithRobot n.name) := by
  induction xs generalizing kept with
  | nil => simp
  | cons a xs ih =>
    rw [List.foldl_cons]
    by_cases ha : startsWithRobot a.name = true
    · have hkept : ∀ b ∈ kept, ¬ (decide (b.uid = a.uid) = true) := by
        intro b hb hEq
        have hEq' : b.uid = a.uid := of_decide_eq_true hEq
        rw [List.map_append, List.nodup_append] at hnodup
        exact hnodup.2.2 (List.mem_map_of_mem Node.uid hb)
          (hEq' ▸ List.mem_map_of_mem Node.uid (List.mem_cons_self a xs))
      have herase : sceneRemove a.uid (kept ++ a :: xs) = kept ++ xs := by
        unfold sceneRemove
        rw [List.eraseP_append_right _ hkept]
        simp
      have hnodup' : ((kept ++ xs).map Node.uid).Nodup := by
        have hsub : List.Sublist (kept ++ xs) (kept ++ a :: xs) :=
          List.Sublist.append_left (List.sublist_cons_self a xs) kept
        exact (hsub.map Node.uid).nodup hnodup
      simp only [ha, if_true, herase]
      rw [ih kept hnodup']
      simp [ha]
    · have hstep : kept ++ a :: xs = (kept ++ [a]) ++ xs := by simp
      have hnodup' : (((kept ++ [a]) ++ xs).map Node.uid).Nodup := by
        rw [← hstep]; exact hnodup
      simp only [ha]
      rw [if_neg (by simp), hstep, ih (kept ++ [a]) hnodup']
      simp [ha]

/-- C10: after `deleteAll()` the scene children are exactly the children
whose name does not start with `robot_`, unchanged and in their original
order; so no child with the robot namespace is left and none of the
others is lost (the children are distinct objects). -/
theorem deleteAll_removes_exactly_robots (s : State)
    (hdistinct : (s.children.map Node.uid).Nodup) :
    (deleteAll s).children = s.children.filter (fun n => !startsWithRobot n.name) ∧
    (∀ n ∈ (deleteAll s).children, startsWithRobot n.name = false) ∧
    (∀ n ∈ s.children, startsWithRobot n.name = false → n ∈ (deleteAll s).children) := by
  have h : (deleteAll s).children
      = s.children.filter (fun n => !startsWithRobot n.name) := by
    have := deleteAll_loop s.children [] (by simpa using hdistinct)
    simpa [deleteAll] using this
  refine ⟨h, ?_, ?_⟩
  · intro n hn
    rw [h, List.mem_filter] at hn
    simpa using hn.2
  · intro n hn hname
    rw [h, List.mem_filter]
    exact ⟨hn, by simp [hname]⟩

/-- C10 on a scene with the ground, two adjacent robots and the grid: both
robots go, also the second one that slides into the slot of the first. -/
theorem deleteAll_removes_exactly_robots_witness :
    (deleteAll
      ⟨[⟨0, "", 0, 0, 0, 0, 0, 1, "", 0, 0, 0⟩, ⟨1, "robot_a", 1, 1, 0, 0, 0, 1, "V", 0, 0, 0⟩,
        ⟨2, "robot_b", 2, 2, 0, 0, 0, 1, "V", 0, 0, 0⟩, ⟨3, "grid", 0, 0, 0, 0, 0, 1, "", 0, 0, 0⟩],
       [], [], 4⟩).children
      = [⟨0, "", 0, 0, 0, 0, 0, 1, "", 0, 0, 0⟩, ⟨3, "grid", 0, 0, 0, 0, 0, 1, "", 0, 0, 0⟩] := by
  have h := (deleteAll_removes_exactly_robots
    ⟨[⟨0, "", 0, 0, 0, 0, 0, 1, "", 0, 0, 0⟩, ⟨1, "robot_a", 1, 1, 0, 0, 0, 1, "V", 0, 0, 0⟩,
      ⟨2, "robot_b", 2, 2, 0, 0, 0, 1, "V", 0, 0, 0⟩, ⟨3, "grid", 0, 0, 0, 0, 0, 1, "", 0, 0, 0⟩],
     [], [], 4⟩ (by decide)).1
  rw [h]
  decide

/-! ## Lookups that fail -/

/-- C8: when no entity carries the id, `move` calls the callback once with
`'undefined'` and `delete` calls it once with `'not found'` (the two
spellings of the status NotFound), and both leave the state as it was;
`delete` without an id calls the callback once with `'id not specified'`
(MissingId) and changes nothing either. -/
theorem missing_entity_is_reported_once_and_nothing_changes (env : Env) (now : ℚ)
    (s : State) (id : String) (x y heading : ℚ) (k : Nat)
    (hmissing : «exists» s id = none) :
    (move env now s id x y heading (.fn k)).state = s ∧
    (move env now s id x y heading (.fn k)).signals = [(k, "undefined")] ∧
    (move env now s id x y heading (.fn k)).ret = none ∧
    (delete s (some id) (.fn k)).state = s ∧
    (delete s (some id) (.fn k)).signals = [(k, "not found")] ∧
    (delete s none (.fn k)).state = s ∧
    (delete s none (.fn k)).signals = [(k, "id not specified")] := by
  unfold «exists» at hmissing
  simp [move, delete, hmissing, notify, Callback.call]

/-- C8 on the empty scene, the scenario `move('r2', 1, 1, 0)` of the spec. -/
theorem missing_entity_is_reported_once_and_nothing_changes_witness :
    (move ⟨1, 0, 10, 0, 10, "V", 1⟩ 0 State.empty "r2" 1 1 0 (.fn 0)).state = State.empty ∧
    (move ⟨1, 0, 10, 0, 10, "V", 1⟩ 0 State.empty "r2" 1 1 0 (.fn 0)).signals
      = [(0, "undefined")] ∧
    (delete State.empty (some "r2") (.fn 0)).state = State.empty ∧
    (delete State.empty (some "r2") (.fn 0)).signals = [(0, "not found")] :=
  have h := missing_entity_is_reported_once_and_nothing_changes ⟨1, 0, 10, 0, 10, "V", 1⟩ 0
    State.empty "r2" 1 1 0 0 rfl
  ⟨h.1, h.2.1, h.2.2.2.1, h.2.2.2.2.1⟩

/-! ## Moves without displacement -/

/-- Looking a name up after a per-node update that keeps names. -/
theorem find_name_map (f : Node → Node) (hname : ∀ n, (f n).name = n.name)
    (name : String) (l : List Node) :
    (l.map f).find? (fun n => n.name = name) = (l.find? (fun n => n.name = name)).map f := by
  induction l with
  | nil => rfl
  | cons a l ih =>
    by_cases ha : a.name = name
    · simp [List.find?, hname, ha]
    · simp [List.find?, hname, ha, ih]

/-- Rounding a number that lies within a half of the integer `z`. -/
theorem mathRound_eq (q : ℚ) (z : ℤ) (hlo : (z : ℚ) ≤ q + 1 / 2) (hhi : q + 1 / 2 < z + 1) :
    mathRound q = z := by
  unfold mathRound
  exact_mod_cast congrArg (Int.cast : ℤ → ℚ) (Int.floor_eq_iff.mpr ⟨hlo, hhi⟩)

/-- The target coordinate 5 of the scenarios stays 5 in `arenaEnv`. -/
theorem moveTarget_five : moveTarget 1 5 0 10 = 5 := by
  unfold moveTarget clamp
  rw [mathRound_eq (5 * 10) 50 (by norm_num) (by norm_num)]
  norm_num

/-- The target coordinate 1 of the scenarios stays 1 in `arenaEnv`. -/
theorem moveTarget_one : moveTarget 1 1 0 10 = 1 := by
  unfold moveTarget clamp
  rw [mathRound_eq (1 * 10) 10 (by norm_num) (by norm_num)]
  norm_num

/-- A move of an existing entity whose clamped, rounded target is its
current position sets the rotation of the entity to
`(heading - 90) * DEG2RAD` within the call, leaves every other field and the
tweens and loads untouched, calls nothing, and returns the rotated mesh. -/
theorem move_in_place_rotates_synchronously (env : Env) (now : ℚ) (s : State) (id : String)
    (x y heading : ℚ) (callback : Callback) (r : Node)
    (hr : «exists» s id = some r)
    (hzero : distanceSq (moveTarget env.scene_scale x env.minX env.maxX)
      (moveTarget env.scene_scale y env.minY env.maxY) r.posX r.posY = 0) :
    «exists» (move env now s id x y heading callback).state id
      = some { r with rotY := (heading - 90) * env.DEG2RAD } ∧
    (move env now s id x y heading callback).state.tweens = s.tweens ∧
    (move env now s id x y heading callback).state.loading = s.loading ∧
    (move env now s id x y heading callback).signals = [] ∧
    (move env now s id x y heading callback).ret
      = some { r with rotY := (heading - 90) * env.DEG2RAD } := by
  unfold «exists» at hr ⊢
  have hfind := hr
  unfold getObjectByName at hfind
  simp only [move, hr, hzero, ne_eq, not_true_eq_false, if_false]
  refine ⟨?_, by trivial, by trivial, by trivial, by simp⟩
  unfold getObjectByName
  simp only []
  rw [find_name_map _ (by intro n; split <;> rfl), hfind]
  simp

/-- C5 at the failing input: `r1` stands at (1, 1) with rotation 0 and is
told `move('r1', 1, 1, 0, cb)`.  The rotation is set within the call and
no tween is started, but the callback `cb` is called neither during the call
nor on a later frame.  The two sibling paths of `move` do call it:
with `'success'` when the tween of a move to (5, 5) completes, with
`'undefined'` when there is no mesh.  So `create` on the standing robot
never delivers the `'already defined, so moved'` that it delivers after a
move to (5, 5). -/
theorem move_in_place_never_calls_back :
    (move arenaEnv 0 ⟨[robotAt 0 "robot_r1" 1 1 0], [], [], 1⟩ "r1" 1 1 0
      (.fn 7)).state.children.map Node.rotY = [(0 - 90) * (71 / 4068)] ∧
    (move arenaEnv 0 ⟨[robotAt 0 "robot_r1" 1 1 0], [], [], 1⟩ "r1" 1 1 0
      (.fn 7)).state.tweens = [] ∧
    trace arenaEnv ⟨[robotAt 0 "robot_r1" 1 1 0], [], [], 1⟩
      [.move 0 "r1" 1 1 0 (.fn 7), .update 2000] = [] ∧
    trace arenaEnv ⟨[robotAt 0 "robot_r1" 1 1 0], [], [], 1⟩
      [.move 0 "r1" 5 5 0 (.fn 7), .update 2000] = [(7, "success")] ∧
    trace arenaEnv State.empty [.move 0 "r1" 1 1 0 (.fn 7)] = [(7, "undefined")] ∧
    trace arenaEnv ⟨[robotAt 0 "robot_r1" 1 1 0], [], [], 1⟩
      [.create 0 "r1" 1 1 0 "V" (.fn 7), .update 2000] = [] ∧
    trace arenaEnv ⟨[robotAt 0 "robot_r1" 1 1 0], [], [], 1⟩
      [.create 0 "r1" 5 5 0 "V" (.fn 7), .update 2000]
      = [(7, "already defined, so moved")] := by
  have h1 := moveTarget_one
  have h5 := moveTarget_five
  have hname : ("robot_" ++ "r1" : String) = "robot_r1" := by decide
  refine ⟨?_, ?_, ?_, ?_, ?_, ?_, ?_⟩
  · norm_num [move, getObjectByName, robotAt, arenaEnv, distanceSq, h1, ROBOT_PREFIX, hname]
  · norm_num [move, getObjectByName, robotAt, arenaEnv, distanceSq, h1, ROBOT_PREFIX, hname]
  · norm_num [trace, step, move, getObjectByName, robotAt, arenaEnv, distanceSq, h1,
      ROBOT_PREFIX, hname, update, updateAll]
  · norm_num [trace, step, move, getObjectByName, robotAt, arenaEnv, distanceSq, h5,
      ROBOT_PREFIX, hname, update, updateAll, Tween.update, Tween.progress, notify,
      Callback.call]
    simp
  · simp [trace, step, move, getObjectByName, State.empty, notify, Callback.call]
  · norm_num [trace, step, create, compatible, move, getObjectByName, robotAt, arenaEnv,
      distanceSq, h1, ROBOT_PREFIX, hname, update, updateAll]
  · norm_num [trace, step, create, compatible, move, getObjectByName, robotAt, arenaEnv,
      distanceSq, h5, ROBOT_PREFIX, hname, update, updateAll, Tween.update, Tween.progress,
      notify, Callback.call]
    simp

/-! ## Rounding to doubles -/

/-- Zero is a double. -/
theorem toDouble_zero (q : ℚ) (h : q = 0) : toDouble q = 0 := by
  unfold toDouble
  rw [if_pos h]

/-- The value of `roundHalfEven` from the integer below and the remainder. -/
theorem roundHalfEven_eq (q : ℚ) (f m : ℤ) (hf1 : (f : ℚ) ≤ q) (hf2 : q < f + 1)
    (hm : (q - f < 1 / 2 ∧ m = f) ∨ (1 / 2 < q - f ∧ m = f + 1) ∨
      (q - f = 1 / 2 ∧ ((f % 2 = 0 ∧ m = f) ∨ (f % 2 = 1 ∧ m = f + 1)))) :
    roundHalfEven q = m := by
  have hfloor : ⌊q⌋ = f := Int.floor_eq_iff.mpr ⟨hf1, hf2⟩
  unfold roundHalfEven
  simp only [hfloor]
  rcases hm with ⟨h, rfl⟩ | ⟨h, rfl⟩ | ⟨h, hpar⟩
  · rw [if_pos h]
  · rw [if_neg (by linarith), if_pos h]
  · rw [if_neg (by linarith), if_neg (by linarith)]
    rcases hpar with ⟨hp, rfl⟩ | ⟨hp, rfl⟩
    · rw [if_pos hp]
    · rw [if_neg (by omega)]

/-- The double nearest to `q` from its binade: with `ulp = 2 ^ e` and
`2 ^ 52 * ulp ≤ |q| < 2 ^ 53 * ulp` it is the rounded mantissa times `ulp`. -/
theorem toDouble_eq (q ulp : ℚ) (e m : ℤ) (hulp : (2 : ℚ) ^ e = ulp) (he : -1074 ≤ e)
    (hlo : ulp * 2 ^ 52 ≤ |q|) (hhi : |q| < ulp * 2 ^ 53)
    (hm : roundHalfEven (q / ulp) = m) : toDouble q = m * ulp := by
  have hulp_pos : 0 < ulp := by rw [← hulp]; positivity
  have hpos : 0 < |q| := lt_of_lt_of_le (by positivity) hlo
  have hq : q ≠ 0 := abs_pos.mp hpos
  have h52 : (2 : ℚ) ^ (e + 52) = ulp * 2 ^ 52 := by
    rw [zpow_add₀ (by norm_num), hulp]; norm_cast
  have h53 : (2 : ℚ) ^ (e + 53) = ulp * 2 ^ 53 := by
    rw [zpow_add₀ (by norm_num), hulp]; norm_cast
  have hlog : Int.log 2 |q| = e + 52 := by
    have h1 : e + 52 ≤ Int.log 2 |q| := by
      rw [← Int.zpow_le_iff_le_log (by norm_num) hpos]
      push_cast; rw [h52]; exact hlo
    have h2 : Int.log 2 |q| < e + 53 := by
      rw [← Int.lt_zpow_iff_log_lt (by norm_num) hpos]
      push_cast; rw [h53]; exact hhi
    omega
  unfold toDouble
  rw [if_neg hq]
  simp only [hlog]
  have hmax : max (e + 52 - 52) (-1074) = e := by
    rw [add_sub_cancel_right]; exact max_eq_left he
  rw [hmax, hulp, hm]

/-- The double nearest to `q`, from its absolute value `a`, its binade, the
integer `f` below the scaled mantissa and the way the remainder rounds. -/
theorem toDouble_val (q ulp a : ℚ) (e f m : ℤ) (r : ℚ) (hulp : (2 : ℚ) ^ e = ulp)
    (he : -1074 ≤ e) (habs : |q| = a) (hlo : ulp * 2 ^ 52 ≤ a) (hhi : a < ulp * 2 ^ 53)
    (hf1 : (f : ℚ) ≤ q / ulp) (hf2 : q / ulp < f + 1)
    (hm : (q / ulp - f < 1 / 2 ∧ m = f) ∨ (1 / 2 < q / ulp - f ∧ m = f + 1) ∨
      (q / ulp - f = 1 / 2 ∧ ((f % 2 = 0 ∧ m = f) ∨ (f % 2 = 1 ∧ m = f + 1))))
    (hr : (m : ℚ) * ulp = r) : toDouble q = r := by
  rw [toDouble_eq q ulp e m hulp he (habs ▸ hlo) (habs ▸ hhi)
    (roundHalfEven_eq _ f m hf1 hf2 hm), hr]

/-- The interpolation from the three roundings it is made of. -/
theorem lerp_eq (a b v d p r : ℚ) (h1 : toDouble (b - a) = d) (h2 : toDouble (d * v) = p)
    (h3 : toDouble (a + p) = r) : lerp a b v = r := by
  unfold lerp
  rw [h1, h2, h3]

/-- Halfway from rotation 0 to `-355/113` in doubles. -/
theorem lerp_half_turn :
    lerp 0 (-(355 / 113)) (1 / 2) = (-884279794090999 / 562949953421312) :=
  lerp_eq 0 (-(355 / 113)) (1 / 2) (-884279794090999 / 281474976710656) (-884279794090999 / 562949953421312) (-884279794090999 / 562949953421312)
    (toDouble_val ((-(355 / 113)) - 0) (1 / 2251799813685248) (-((-(355 / 113)) - 0)) (-51) (-7074238352727992) (-7074238352727992) (-884279794090999 / 281474976710656)
      (by norm_num [zpow_neg]) (by norm_num) (abs_of_neg (by norm_num))
      (by norm_num) (by norm_num) (by norm_num) (by norm_num)
      (Or.inl ⟨by norm_num, rfl⟩) (by norm_num))
    (toDouble_val ((-884279794090999 / 281474976710656) * (1 / 2)) (1 / 4503599627370496) (-((-884279794090999 / 281474976710656) * (1 / 2))) (-52) (-7074238352727992) (-7074238352727992) (-884279794090999 / 562949953421312)
      (by norm_num [zpow_neg]) (by norm_num) (abs_of_neg (by norm_num))
      (by norm_num) (by norm_num) (by norm_num) (by norm_num)
      (Or.inl ⟨by norm_num, rfl⟩) (by norm_num))
    (toDouble_val (0 + (-884279794090999 / 562949953421312)) (1 / 4503599627370496) (-(0 + (-884279794090999 / 562949953421312))) (-52) (-7074238352727992) (-7074238352727992) (-884279794090999 / 562949953421312)
      (by norm_num [zpow_neg]) (by norm_num) (abs_of_neg (by norm_num))
      (by norm_num) (by norm_num) (by norm_num) (by norm_num)
      (Or.inl ⟨by norm_num, rfl⟩) (by norm_num))

/-! ## The rotation flag -/

/-- C7 as stated fails: `r3` created with heading 90 has rotation 0, so the
move with heading -90 gets `rotationFlag = true`, and the frame halfway
through the tween turns the robot (to the double nearest to
`-90 * DEG2RAD`, -1.5707964601769913 here); while a robot created
with heading 45 and moved with heading 135, two headings of the same sign,
gets `rotationFlag = false`. -/
theorem heading_signs_do_not_decide_rotation_updates :
    (run arenaEnv State.empty
      [.create 0 "r3" 1 1 90 "V" .undefined, .loadComplete 0,
       .move 0 "r3" 5 5 (-90) .undefined]).tweens.map Tween.rotationFlag = [true] ∧
    (run arenaEnv State.empty
      [.create 0 "r3" 1 1 90 "V" .undefined, .loadComplete 0,
       .move 0 "r3" 5 5 (-90) .undefined]).children.map Node.rotY = [0] ∧
    (run arenaEnv State.empty
      [.create 0 "r3" 1 1 90 "V" .undefined, .loadComplete 0,
       .move 0 "r3" 5 5 (-90) .undefined, .update 550]).children.map Node.rotY
      = [(-884279794090999 / 562949953421312)] ∧
    (run arenaEnv State.empty
      [.create 0 "r3" 1 1 45 "V" .undefined, .loadComplete 0,
       .move 0 "r3" 5 5 135 .undefined]).tweens.map Tween.rotationFlag = [false] := by
  have h5 := moveTarget_five
  refine ⟨?_, ?_, ?_, ?_⟩
  · simp [run, step, create, getObjectByName, State.empty, compatible, arenaEnv, loadComplete,
      newMesh, move, clamp, distanceSq, h5, rotationFlag, ROBOT_PREFIX]
    norm_num
  · simp [run, step, create, getObjectByName, State.empty, compatible, arenaEnv, loadComplete,
      newMesh, move, clamp, distanceSq, h5, rotationFlag, ROBOT_PREFIX]
    norm_num
  · norm_num [run, step, create, getObjectByName, State.empty, compatible, arenaEnv, loadComplete,
      newMesh, move, clamp, distanceSq, h5, rotationFlag, ROBOT_PREFIX, update, updateAll,
      Tween.update, Tween.progress, onUpdate, onComplete, lerp_half_turn]
  · simp [run, step, create, getObjectByName, State.empty, compatible, arenaEnv, loadComplete,
      newMesh, move, clamp, distanceSq, h5, rotationFlag, ROBOT_PREFIX]
    norm_num

/-- C7, amended: for a move with displacement the tween gets
`rotationFlag = true` exactly when the current rotation `r.rotation.y` of
the mesh and the target rotation `(heading - 90) * DEG2RAD` have the same
sign or one of them is zero; on a frame inside the animation the rotation
of the mesh becomes the interpolated one (`lerp`) under the flag and stays
as it was without it. -/
theorem rotation_updates_follow_rotation_signs (env : Env) (now : ℚ) (s : State)
    (id : String) (x y heading : ℚ) (callback : Callback) (r : Node)
    (hr : «exists» s id = some r)
    (hdist : distanceSq (moveTarget env.scene_scale x env.minX env.maxX)
      (moveTarget env.scene_scale y env.minY env.maxY) r.posX r.posY ≠ 0) :
    ∃ t : Tween,
      (move env now s id x y heading callback).state.tweens = s.tweens ++ [t] ∧
      t.target = r.uid ∧
      (t.rotationFlag = true ↔
        (0 ≤ r.rotY ∧ 0 ≤ (heading - 90) * env.DEG2RAD) ∨
        (r.rotY ≤ 0 ∧ (heading - 90) * env.DEG2RAD ≤ 0)) ∧
      ∀ (time : ℚ) (n : Node), n.uid = r.uid → t.startTime ≤ time → t.progress time ≠ 1 →
        (t.update time [n]).1.map Node.rotY =
          [if t.rotationFlag = true then lerp t.h0 t.h1 (t.progress time) else n.rotY] := by
  unfold «exists» at hr
  simp only [move, hr, hdist, ne_eq, not_false_eq_true, if_true]
  refine ⟨_, rfl, rfl, ?_, ?_⟩
  · simp only [rotationFlag, decide_eq_true_eq, ge_iff_le]
    exact mul_nonneg_iff
  · intro time n hn hstart hprog
    have hnot : ¬ time < now + 50 := not_lt.mpr hstart
    simp only [Tween.update, hnot, if_false, hprog, List.map, onUpdate, hn, if_true]

/-- C7, amended, on a turn that crosses the sign: the robot with rotation
`90 * DEG2RAD` (heading 180) moved with heading 0, whose target rotation is
`-90 * DEG2RAD`, gets `rotationFlag = false`. -/
theorem rotation_updates_follow_rotation_signs_witness :
    (move arenaEnv 0 ⟨[robotAt 0 "robot_r3" 1 1 (90 * (71 / 4068))], [], [], 1⟩ "r3" 5 5 0
      .undefined).state.tweens.map Tween.rotationFlag = [false] := by
  have hdist : distanceSq (moveTarget arenaEnv.scene_scale 5 arenaEnv.minX arenaEnv.maxX)
      (moveTarget arenaEnv.scene_scale 5 arenaEnv.minY arenaEnv.maxY)
      (robotAt 0 "robot_r3" 1 1 (90 * (71 / 4068))).posX
      (robotAt 0 "robot_r3" 1 1 (90 * (71 / 4068))).posY ≠ 0 := by
    norm_num [arenaEnv, moveTarget_five, distanceSq, robotAt]
  obtain ⟨t, ht, _, hflag, _⟩ := rotation_updates_follow_rotation_signs arenaEnv 0
    ⟨[robotAt 0 "robot_r3" 1 1 (90 * (71 / 4068))], [], [], 1⟩ "r3" 5 5 0 .undefined
    (robotAt 0 "robot_r3" 1 1 (90 * (71 / 4068)))
    (by simp [«exists», getObjectByName, robotAt, ROBOT_PREFIX]) hdist
  have hfalse : t.rotationFlag = false := by
    rw [← Bool.not_eq_true, hflag]
    norm_num [arenaEnv, robotAt]
  rw [ht]
  simp [hfalse]

/-! ## Re-creation with an incompatible reality -/

/-- Removing the object found under a name is removing the first child with
that name, when the children are distinct objects. -/
theorem sceneRemove_found (name : String) (l : List Node) (r : Node)
    (hdistinct : (l.map Node.uid).Nodup)
    (hr : l.find? (fun n => n.name = name) = some r) :
    sceneRemove r.uid l = l.eraseP (fun n => n.name = name) := by
  unfold sceneRemove
  induction l with
  | nil => simp at hr
  | cons a l ih =>
    by_cases ha : a.name = name
    · have hra : a = r := by simpa [List.find?, ha] using hr
      subst hra
      simp [ha]
    · have hr' : l.find? (fun n => n.name = name) = some r := by
        simpa [List.find?, ha] using hr
      have hmem : r ∈ l := List.mem_of_find?_eq_some hr'
      rw [List.map_cons, List.nodup_cons] at hdistinct
      have hne : a.uid ≠ r.uid := by
        intro hEq
        exact hdistinct.1 (hEq ▸ List.mem_map_of_mem Node.uid hmem)
      rw [List.eraseP_cons_of_neg (by simpa using hne),
        List.eraseP_cons_of_neg (by simpa using ha), ih hdistinct.2 hr']

/-- After the first carrier of a name is removed, the name is free exactly
when that carrier was the only one. -/
theorem find_after_erase (name : String) (l : List Node) (r : Node)
    (hr : l.find? (fun n => n.name = name) = some r) :
    (l.eraseP (fun n => n.name = name)).find? (fun n => n.name = name) = none ↔
      l.countP (fun n => n.name = name) = 1 := by
  induction l with
  | nil => simp at hr
  | cons a l ih =>
    by_cases ha : a.name = name
    · rw [List.eraseP_cons_of_pos (by simpa using ha), List.find?_eq_none,
        List.countP_cons_of_pos _ _ (by simpa using ha)]
      constructor
      · intro h
        have hzero : l.countP (fun n => n.name = name) = 0 := List.countP_eq_zero.mpr h
        omega
      · intro h
        have hzero : l.countP (fun n => n.name = name) = 0 := by omega
        exact List.countP_eq_zero.mp hzero
    · have hr' : l.find? (fun n => n.name = name) = some r := by
        simpa [List.find?, ha] using hr
      rw [List.eraseP_cons_of_neg (by simpa using ha),
        List.countP_cons_of_neg _ _ (by simpa using ha)]
      simpa [List.find?, ha] using ih hr'

/-- C4 as stated fails: in the mixed mode `'M'` the virtual robot `r1` is
re-created as a real one, a kind that mismatches the entity; the entity is
not deleted but moved (a tween on it is started) and its kind stays `'V'`. -/
theorem mismatched_kind_moves_in_mixed_mode :
    («exists» (create mixedEnv 0 ⟨[robotAt 0 "robot_r1" 1 1 0], [], [], 1⟩ "r1" 5 5 90 "R"
      .undefined).state "r1") = some (robotAt 0 "robot_r1" 1 1 0) ∧
    (create mixedEnv 0 ⟨[robotAt 0 "robot_r1" 1 1 0], [], [], 1⟩ "r1" 5 5 90 "R"
      .undefined).state.tweens.map Tween.target = [0] := by
  have h5 := moveTarget_five
  have hname : ("robot_" ++ "r1" : String) = "robot_r1" := by decide
  constructor
  · norm_num [«exists», create, getObjectByName, robotAt, compatible, mixedEnv, move,
      distanceSq, h5, ROBOT_PREFIX, hname]
  · norm_num [«exists», create, getObjectByName, robotAt, compatible, mixedEnv, move,
      distanceSq, h5, ROBOT_PREFIX, hname]

/-- C4, amended: when an entity with the id exists and the reality kind is
incompatible with the environment mode (`reality !== REALITY` and
`REALITY !== 'M'`), `create` removes the first child carrying the name and
touches nothing else: no child is changed, no tween or load is started,
no callback is called.  Afterwards `exists(id)` is false exactly when that
child was the only one with the name.  The children are distinct objects. -/
theorem create_incompatible_deletes (env : Env) (now : ℚ) (s : State) (id : String)
    (x y heading : ℚ) (reality : String) (callback : Callback) (r : Node)
    (hr : «exists» s id = some r)
    (hincompat : compatible env reality = false)
    (hdistinct : (s.children.map Node.uid).Nodup) :
    (create env now s id x y heading reality callback).state.children
      = s.children.eraseP (fun n => n.name = ROBOT_PREFIX ++ id) ∧
    (create env now s id x y heading reality callback).state.tweens = s.tweens ∧
    (create env now s id x y heading reality callback).state.loading = s.loading ∧
    (create env now s id x y heading reality callback).signals = [] ∧
    («exists» (create env now s id x y heading reality callback).state id = none ↔
      s.children.countP (fun n => n.name = ROBOT_PREFIX ++ id) = 1) := by
  unfold «exists» at hr ⊢
  have hfind := hr
  unfold getObjectByName at hfind
  have hrem := sceneRemove_found _ _ _ hdistinct hfind
  have hgone := find_after_erase _ _ _ hfind
  simp [create, delete, getObjectByName, hfind, hincompat, hrem, hgone, notify]

/-- C4, amended, in the virtual-only arena: re-creating the virtual robot
`r1` as a real one empties the scene; and with two meshes named `robot_r1`
in the scene only the first one goes, so `exists('r1')` stays true. -/
theorem create_incompatible_deletes_witness :
    (create arenaEnv 0 ⟨[robotAt 0 "robot_r1" 1 1 0], [], [], 1⟩ "r1" 5 5 90 "R"
      .undefined).state.children = [] ∧
    «exists» (create arenaEnv 0 ⟨[robotAt 0 "robot_r1" 1 1 0], [], [], 1⟩ "r1" 5 5 90 "R"
      .undefined).state "r1" = none ∧
    (create arenaEnv 0 ⟨[robotAt 0 "robot_r1" 1 1 0, robotAt 1 "robot_r1" 2 2 0], [], [], 2⟩
      "r1" 5 5 90 "R" .undefined).state.children = [robotAt 1 "robot_r1" 2 2 0] ∧
    «exists» (create arenaEnv 0
      ⟨[robotAt 0 "robot_r1" 1 1 0, robotAt 1 "robot_r1" 2 2 0], [], [], 2⟩
      "r1" 5 5 90 "R" .undefined).state "r1" ≠ none := by
  have hname : ("robot_" ++ "r1" : String) = "robot_r1" := by decide
  have h := create_incompatible_deletes arenaEnv 0 ⟨[robotAt 0 "robot_r1" 1 1 0], [], [], 1⟩
    "r1" 5 5 90 "R" .undefined (robotAt 0 "robot_r1" 1 1 0)
    (by simp [«exists», getObjectByName, robotAt, ROBOT_PREFIX, hname])
    (by decide) (by decide)
  have h2 := create_incompatible_deletes arenaEnv 0
    ⟨[robotAt 0 "robot_r1" 1 1 0, robotAt 1 "robot_r1" 2 2 0], [], [], 2⟩
    "r1" 5 5 90 "R" .undefined (robotAt 0 "robot_r1" 1 1 0)
    (by simp [«exists», getObjectByName, robotAt, ROBOT_PREFIX, hname])
    (by decide) (by decide)
  refine ⟨?_, ?_, ?_, ?_⟩
  · rw [h.1]
    simp [robotAt, ROBOT_PREFIX, hname]
  · rw [h.2.2.2.2]
    simp [robotAt, ROBOT_PREFIX, hname]
  · rw [h2.1]
    simp [robotAt, ROBOT_PREFIX, hname]
  · rw [Ne, h2.2.2.2.2]
    simp [robotAt, ROBOT_PREFIX, hname]

/-! ## Re-creation of an existing entity -/

/-- Once the mesh of the id is in the scene and the kind is compatible,
`create` does what `move` does with the wrapped callback. -/
theorem create_existing_delegates_to_move (env : Env) (now : ℚ) (s : State) (id : String)
    (x y heading : ℚ) (reality : String) (callback : Callback) (r : Node)
    (hr : «exists» s id = some r) (hcompat : compatible env reality = true) :
    (create env now s id x y heading reality callback).state
      = (move env now s id x y heading (.movedInstead callback)).state ∧
    (create env now s id x y heading reality callback).signals
      = (move env now s id x y heading (.movedInstead callback)).signals := by
  unfold «exists» at hr
  simp [create, hr, hcompat]

/-- C3 at the failing input: two `create` calls for `r1` in a row, before
the model load of the first has finished, both find no mesh and both start a
load, and the scene ends with two children named `robot_r1`; `create`
followed by `move` ends with one, still at the first position, and the
`move` is answered with `'undefined'`. -/
theorem create_twice_before_load_duplicates :
    (run arenaEnv State.empty
      [.create 0 "r1" 1 1 0 "V" (.fn 0), .create 0 "r1" 2 2 0 "V" (.fn 0),
       .loadComplete 0, .loadComplete 0]).children.map (fun n => (n.name, n.posX, n.posY))
      = [("robot_" ++ "r1", 1, 1), ("robot_" ++ "r1", 2, 2)] ∧
    (run arenaEnv State.empty
      [.create 0 "r1" 1 1 0 "V" (.fn 0), .move 0 "r1" 2 2 0 (.fn 0),
       .loadComplete 0]).children.map (fun n => (n.name, n.posX, n.posY))
      = [("robot_" ++ "r1", 1, 1)] ∧
    trace arenaEnv State.empty
      [.create 0 "r1" 1 1 0 "V" (.fn 0), .move 0 "r1" 2 2 0 (.fn 0)] = [(0, "undefined")] := by
  refine ⟨?_, ?_, ?_⟩
  · norm_num [run, step, create, getObjectByName, State.empty, compatible, arenaEnv,
      loadComplete, newMesh, clamp, ROBOT_PREFIX]
  · norm_num [run, step, create, getObjectByName, State.empty, compatible, arenaEnv,
      loadComplete, newMesh, clamp, ROBOT_PREFIX, move, notify, Callback.call]
  · simp [trace, step, create, getObjectByName, State.empty, compatible, arenaEnv,
      move, notify, Callback.call]

/-! ## What `create` reports -/

/-- C9 as stated fails: in the virtual-only arena `create` of a real robot
given the callback 0 calls nothing and leaves the state as it was, so no
load or tween is there to call the callback later; and re-creating the
existing virtual `r1` as a real one deletes it without calling the callback
either. -/
theorem create_paths_without_report :
    (create arenaEnv 0 State.empty "r1" 1 1 0 "R" (.fn 0)).signals = [] ∧
    (create arenaEnv 0 State.empty "r1" 1 1 0 "R" (.fn 0)).state = State.empty ∧
    (create arenaEnv 0 ⟨[robotAt 0 "robot_r1" 1 1 0], [], [], 1⟩ "r1" 5 5 90 "R"
      (.fn 0)).signals = [] ∧
    (create arenaEnv 0 ⟨[robotAt 0 "robot_r1" 1 1 0], [], [], 1⟩ "r1" 5 5 90 "R"
      (.fn 0)).state = ⟨[], [], [], 1⟩ := by
  have hname : ("robot_" ++ "r1" : String) = "robot_r1" := by decide
  refine ⟨?_, ?_, ?_, ?_⟩
  · simp [create, getObjectByName, State.empty, compatible, arenaEnv]
  · simp [create, getObjectByName, State.empty, compatible, arenaEnv]
  · simp [create, getObjectByName, compatible, arenaEnv, robotAt, ROBOT_PREFIX, hname, delete,
      notify]
  · simp [create, getObjectByName, compatible, arenaEnv, robotAt, ROBOT_PREFIX, hname, delete,
      sceneRemove]

/-- Retiring the load that was queued last gives the earlier queue back. -/
theorem eraseIdx_last (l : List PendingLoad) (p : PendingLoad) :
    (l ++ [p]).eraseIdx l.length = l := by
  induction l with
  | nil => rfl
  | cons a l ih => simp [List.eraseIdx, ih]

/-- What `move` does to an entity that has to travel: one more tween, with
the start delay of 50 ms and the duration of 1000 ms, nothing else. -/
theorem move_starts_tween (env : Env) (now : ℚ) (s : State) (id : String)
    (x y heading : ℚ) (callback : Callback) (r : Node)
    (hr : getObjectByName s ( ROBOT_PREFIX ++ id) = some r)
    (hdist : distanceSq (moveTarget env.scene_scale x env.minX env.maxX)
      (moveTarget env.scene_scale y env.minY env.maxY) r.posX r.posY ≠ 0) :
    (move env now s id x y heading callback).state =
      { s with tweens := s.tweens ++
          [⟨r.uid, now + 50, 1000, r.posX, r.posY, r.rotY,
            moveTarget env.scene_scale x env.minX env.maxX,
            moveTarget env.scene_scale y env.minY env.maxY,
            (heading - 90) * env.DEG2RAD,
            rotationFlag r.rotY ((heading - 90) * env.DEG2RAD), callback⟩] } ∧
    (move env now s id x y heading callback).signals = [] ∧
    (move env now s id x y heading callback).ret = some r := by
  simp [move, hr, hdist]

/-- A tween whose duration has passed is at fraction 1. -/
theorem progress_done (t : Tween) (time : ℚ) (hdur : 0 < t.duration)
    (hdone : t.startTime + t.duration ≤ time) : t.progress time = 1 := by
  unfold Tween.progress
  simp only []
  by_cases h : t.duration = 0 ∨ (time - t.startTime) / t.duration > 1
  · rw [if_pos h]
  · rw [if_neg h]
    rw [not_or, not_lt] at h
    have hge : 1 ≤ (time - t.startTime) / t.duration := by
      rw [le_div_iff₀ hdur]; linarith
    exact le_antisymm h.2 hge

/-- A started tween whose duration has not passed is below fraction 1. -/
theorem progress_running (t : Tween) (time : ℚ) (hdur : 0 < t.duration)
    (hrun : time < t.startTime + t.duration) : t.progress time < 1 := by
  unfold Tween.progress
  simp only []
  have hlt : (time - t.startTime) / t.duration < 1 := by
    rw [div_lt_iff₀ hdur]; linarith
  rw [if_neg (by
    rw [not_or]
    exact ⟨ne_of_gt hdur, not_lt.mpr hlt.le⟩)]
  exact hlt

/-- A frame before the end of a tween calls no callback and keeps the tween. -/
theorem tween_update_unfinished (t : Tween) (time : ℚ) (children : List Node)
    (hdur : 0 < t.duration) (hrun : time < t.startTime + t.duration) :
    (t.update time children).2 = ([], true) := by
  unfold Tween.update
  by_cases hstart : time < t.startTime
  · simp [hstart]
  · simp [hstart, ne_of_lt (progress_running t time hdur hrun)]

/-- A frame at or after the end of a tween writes the values interpolated
at fraction 1 through `onUpdate`, runs `onComplete`, calls the callback and
drops the tween. -/
theorem tween_update_finished (t : Tween) (time : ℚ) (children : List Node)
    (hdur : 0 < t.duration) (hdone : t.startTime + t.duration ≤ time) :
    t.update time children =
      ((children.map (onUpdate t (lerp t.x0 t.x1 1) (lerp t.y0 t.y1 1)
          (lerp t.h0 t.h1 1))).map (onComplete t (lerp t.h0 t.h1 1)),
        notify t.callback "success", false) := by
  unfold Tween.update
  have hstart : ¬ time < t.startTime := by linarith
  simp [hstart, progress_done t time hdur hdone]

/-- C9, amended: `create` given the callback `k` never calls it during the
call.  When it starts a model load (no entity, compatible kind) the
completion of that load calls `k` once with `'success'` and retires the
load; when it delegates to a `move` with displacement (entity present,
compatible kind) the completion of that tween calls `k` once with
`'already defined, so moved'` and retires the tween, and no earlier frame
calls it; on the two other paths (incompatible kind) no load and no tween is
started, so `k` is never called. -/
theorem create_reports_through_completion_only (env : Env) (now : ℚ) (s : State)
    (id : String) (x y heading : ℚ) (reality : String) (k : Nat) :
    (create env now s id x y heading reality (.fn k)).signals = [] ∧
    («exists» s id = none → compatible env reality = true →
      ∃ p : PendingLoad,
        (create env now s id x y heading reality (.fn k)).state.loading = s.loading ++ [p] ∧
        (create env now s id x y heading reality (.fn k)).state.tweens = s.tweens ∧
        (loadComplete env (create env now s id x y heading reality (.fn k)).state
          s.loading.length).2 = [(k, "success")] ∧
        (loadComplete env (create env now s id x y heading reality (.fn k)).state
          s.loading.length).1.loading = s.loading) ∧
    (∀ r : Node, «exists» s id = some r → compatible env reality = true →
      distanceSq (moveTarget env.scene_scale x env.minX env.maxX)
        (moveTarget env.scene_scale y env.minY env.maxY) r.posX r.posY ≠ 0 →
      ∃ t : Tween,
        (create env now s id x y heading reality (.fn k)).state.tweens = s.tweens ++ [t] ∧
        (create env now s id x y heading reality (.fn k)).state.loading = s.loading ∧
        (∀ (time : ℚ) (children : List Node), time < now + 50 + 1000 →
          (t.update time children).2 = ([], true)) ∧
        (∀ (time : ℚ) (children : List Node), now + 50 + 1000 ≤ time →
          (t.update time children).2 = ([(k, "already defined, so moved")], false))) ∧
    (compatible env reality = false →
      (create env now s id x y heading reality (.fn k)).state.tweens = s.tweens ∧
      (create env now s id x y heading reality (.fn k)).state.loading = s.loading) := by
  refine ⟨?_, ?_, ?_, ?_⟩
  · unfold create
    cases hfind : getObjectByName s ( ROBOT_PREFIX ++ id) with
    | none => by_cases hc : compatible env reality = true <;> simp [hc]
    | some r =>
      by_cases hc : compatible env reality = true
      · simp only [hc, if_true, move, hfind]
        split <;> rfl
      · simp [hc, delete, hfind, notify]
  · intro hnew hc
    unfold «exists» at hnew
    refine ⟨⟨id, env.scene_scale * clamp x env.minX env.maxX,
      env.scene_scale * clamp y env.minY env.maxY, heading, reality, .fn k⟩, ?_, ?_, ?_, ?_⟩
    · simp [create, hnew, hc]
    · simp [create, hnew, hc]
    · simp [create, hnew, hc, loadComplete, Callback.call]
    · simp [create, hnew, hc, loadComplete, eraseIdx_last]
  · intro r hr hc hdist
    have hdel := create_existing_delegates_to_move env now s id x y heading reality (.fn k) r
      hr hc
    unfold «exists» at hr
    have hmove := move_starts_tween env now s id x y heading (.movedInstead (.fn k)) r hr hdist
    rw [hdel.1, hmove.1]
    refine ⟨_, rfl, rfl, ?_, ?_⟩
    · intro time children htime
      exact tween_update_unfinished _ time children (by norm_num) (by simpa using htime)
    · intro time children htime
      rw [tween_update_finished _ time children (by norm_num) (by simpa using htime)]
      simp [notify, Callback.call]
  · intro hc
    unfold create
    cases hfind : getObjectByName s ( ROBOT_PREFIX ++ id) with
    | none => simp [hc]
    | some r => simp [hc, delete, hfind]

/-- C9, amended, on the two reporting paths: creating `r1` in the empty
virtual arena calls nothing during the call and `'success'` once the load
completes; creating it again when it stands at (1, 1), now for (5, 5), calls
nothing during the call and starts one tween. -/
theorem create_reports_through_completion_only_witness :
    (create arenaEnv 0 State.empty "r1" 1 1 0 "V" (.fn 0)).signals = [] ∧
    (loadComplete arenaEnv (create arenaEnv 0 State.empty "r1" 1 1 0 "V" (.fn 0)).state
      0).2 = [(0, "success")] ∧
    (create arenaEnv 0 ⟨[robotAt 0 "robot_r1" 1 1 0], [], [], 1⟩ "r1" 5 5 0 "V"
      (.fn 0)).signals = [] ∧
    (create arenaEnv 0 ⟨[robotAt 0 "robot_r1" 1 1 0], [], [], 1⟩ "r1" 5 5 0 "V"
      (.fn 0)).state.tweens.length = 1 := by
  have hnew := create_reports_through_completion_only arenaEnv 0 State.empty "r1" 1 1 0 "V" 0
  have hold := create_reports_through_completion_only arenaEnv 0
    ⟨[robotAt 0 "robot_r1" 1 1 0], [], [], 1⟩ "r1" 5 5 0 "V" 0
  obtain ⟨_, _, _, hsig, _⟩ := hnew.2.1 rfl (by decide)
  obtain ⟨t, htw, _, _, _⟩ := hold.2.2.1 (robotAt 0 "robot_r1" 1 1 0)
    (by simp [«exists», getObjectByName, robotAt, ROBOT_PREFIX]) (by decide)
    (by norm_num [arenaEnv, moveTarget_five, distanceSq, robotAt])
  exact ⟨hnew.1, hsig, hold.1, by rw [htw]; rfl⟩

/-! ## The frame that completes a move -/

/-- No interpolation between zero and zero leaves zero. -/
theorem lerp_zero (v : ℚ) : lerp 0 0 v = 0 := by
  unfold lerp
  simp [toDouble]

/-- From 0.3 to 0.9 at fraction 1 in doubles: 0.9000000000000001. -/
theorem lerp_overshoots :
    lerp (5404319552844595 / 18014398509481984) (8106479329266893 / 9007199254740992) 1
      = (4053239664633447 / 4503599627370496) :=
  lerp_eq (5404319552844595 / 18014398509481984) (8106479329266893 / 9007199254740992) 1 (1351079888211149 / 2251799813685248) (1351079888211149 / 2251799813685248) (4053239664633447 / 4503599627370496)
    (toDouble_val ((8106479329266893 / 9007199254740992) - (5404319552844595 / 18014398509481984)) (1 / 9007199254740992) ((8106479329266893 / 9007199254740992) - (5404319552844595 / 18014398509481984)) (-53) (5404319552844595) (5404319552844595 + 1) (1351079888211149 / 2251799813685248)
      (by norm_num [zpow_neg]) (by norm_num) (abs_of_pos (by norm_num))
      (by norm_num) (by norm_num) (by norm_num) (by norm_num)
      (Or.inr (Or.inr ⟨by norm_num, Or.inr ⟨by decide, rfl⟩⟩)) (by norm_num))
    (toDouble_val ((1351079888211149 / 2251799813685248) * 1) (1 / 9007199254740992) ((1351079888211149 / 2251799813685248) * 1) (-53) (5404319552844596) (5404319552844596) (1351079888211149 / 2251799813685248)
      (by norm_num [zpow_neg]) (by norm_num) (abs_of_pos (by norm_num))
      (by norm_num) (by norm_num) (by norm_num) (by norm_num)
      (Or.inl ⟨by norm_num, rfl⟩) (by norm_num))
    (toDouble_val ((5404319552844595 / 18014398509481984) + (1351079888211149 / 2251799813685248)) (1 / 9007199254740992) ((5404319552844595 / 18014398509481984) + (1351079888211149 / 2251799813685248)) (-53) (8106479329266893) (8106479329266893 + 1) (4053239664633447 / 4503599627370496)
      (by norm_num [zpow_neg]) (by norm_num) (abs_of_pos (by norm_num))
      (by norm_num) (by norm_num) (by norm_num) (by norm_num)
      (Or.inr (Or.inr ⟨by norm_num, Or.inr ⟨by decide, rfl⟩⟩)) (by norm_num))

/-- From 0.2 to 0.9 at fraction 1 in doubles: 0.8999999999999999. -/
theorem lerp_undershoots :
    lerp (3602879701896397 / 18014398509481984) (8106479329266893 / 9007199254740992) 1
      = (2026619832316723 / 2251799813685248) :=
  lerp_eq (3602879701896397 / 18014398509481984) (8106479329266893 / 9007199254740992) 1 (3152519739159347 / 4503599627370496) (3152519739159347 / 4503599627370496) (2026619832316723 / 2251799813685248)
    (toDouble_val ((8106479329266893 / 9007199254740992) - (3602879701896397 / 18014398509481984)) (1 / 9007199254740992) ((8106479329266893 / 9007199254740992) - (3602879701896397 / 18014398509481984)) (-53) (6305039478318694) (6305039478318694) (3152519739159347 / 4503599627370496)
      (by norm_num [zpow_neg]) (by norm_num) (abs_of_pos (by norm_num))
      (by norm_num) (by norm_num) (by norm_num) (by norm_num)
      (Or.inr (Or.inr ⟨by norm_num, Or.inl ⟨by decide, rfl⟩⟩)) (by norm_num))
    (toDouble_val ((3152519739159347 / 4503599627370496) * 1) (1 / 9007199254740992) ((3152519739159347 / 4503599627370496) * 1) (-53) (6305039478318694) (6305039478318694) (3152519739159347 / 4503599627370496)
      (by norm_num [zpow_neg]) (by norm_num) (abs_of_pos (by norm_num))
      (by norm_num) (by norm_num) (by norm_num) (by norm_num)
      (Or.inl ⟨by norm_num, rfl⟩) (by norm_num))
    (toDouble_val ((3602879701896397 / 18014398509481984) + (3152519739159347 / 4503599627370496)) (1 / 9007199254740992) ((3602879701896397 / 18014398509481984) + (3152519739159347 / 4503599627370496)) (-53) (8106479329266892) (8106479329266892) (2026619832316723 / 2251799813685248)
      (by norm_num [zpow_neg]) (by norm_num) (abs_of_pos (by norm_num))
      (by norm_num) (by norm_num) (by norm_num) (by norm_num)
      (Or.inr (Or.inr ⟨by norm_num, Or.inl ⟨by decide, rfl⟩⟩)) (by norm_num))

/-- From the rotation of heading 0 to the rotation of heading 58 at
fraction 1 in doubles: -0.5585053606381853. -/
theorem lerp_misses_rotation :
    lerp (-(884279719003555 / 562949953421312)) (-(5030569068109113 / 9007199254740992)) 1
      = (-(628821133513639 / 1125899906842624)) :=
  lerp_eq (-(884279719003555 / 562949953421312)) (-(5030569068109113 / 9007199254740992)) 1 (1139738304493471 / 1125899906842624) (1139738304493471 / 1125899906842624) (-(628821133513639 / 1125899906842624))
    (toDouble_val ((-(5030569068109113 / 9007199254740992)) - (-(884279719003555 / 562949953421312))) (1 / 4503599627370496) ((-(5030569068109113 / 9007199254740992)) - (-(884279719003555 / 562949953421312))) (-52) (4558953217973883) (4558953217973883 + 1) (1139738304493471 / 1125899906842624)
      (by norm_num [zpow_neg]) (by norm_num) (abs_of_pos (by norm_num))
      (by norm_num) (by norm_num) (by norm_num) (by norm_num)
      (Or.inr (Or.inr ⟨by norm_num, Or.inr ⟨by decide, rfl⟩⟩)) (by norm_num))
    (toDouble_val ((1139738304493471 / 1125899906842624) * 1) (1 / 4503599627370496) ((1139738304493471 / 1125899906842624) * 1) (-52) (4558953217973884) (4558953217973884) (1139738304493471 / 1125899906842624)
      (by norm_num [zpow_neg]) (by norm_num) (abs_of_pos (by norm_num))
      (by norm_num) (by norm_num) (by norm_num) (by norm_num)
      (Or.inl ⟨by norm_num, rfl⟩) (by norm_num))
    (toDouble_val ((-(884279719003555 / 562949953421312)) + (1139738304493471 / 1125899906842624)) (1 / 9007199254740992) (-((-(884279719003555 / 562949953421312)) + (1139738304493471 / 1125899906842624))) (-53) (-5030569068109112) (-5030569068109112) (-(628821133513639 / 1125899906842624))
      (by norm_num [zpow_neg]) (by norm_num) (abs_of_neg (by norm_num))
      (by norm_num) (by norm_num) (by norm_num) (by norm_num)
      (Or.inl ⟨by norm_num, rfl⟩) (by norm_num))

/-- A target coordinate beyond the arena is clamped to the bound 0.9. -/
theorem moveTarget_bound : moveTarget 1 5 0 js0_9 = js0_9 := by
  unfold moveTarget clamp
  rw [mathRound_eq (5 * 10) 50 (by norm_num) (by norm_num)]
  norm_num [js0_9]

/-- The target coordinate 0 stays 0. -/
theorem moveTarget_origin : moveTarget 1 0 0 js0_9 = 0 := by
  unfold moveTarget clamp
  rw [mathRound_eq (0 * 10) 0 (by norm_num) (by norm_num)]
  norm_num [js0_9]

/-- C2 at the failing input: arena 0..0.9, scale 1.  `create('r1', 0.3, 0,
90, 'V')` and the completion of its load put the mesh at (0.3, 0), inside
the arena; `move('r1', 5, 0, 90)` at time 0 starts a tween to the clamped
target (0.9, 0); the frame at time 1050 completes it and `onUpdate` copies
`0.3 + (0.9 - 0.3) * 1`, which is 0.9000000000000001 in doubles, to the
mesh: the position is above `scale * maxX`, outside the arena. -/
theorem completing_frame_leaves_arena :
    (run smallArena State.empty
      [.create 0 "r1" js0_3 0 90 "V" .undefined,
       .loadComplete 0]).children.map (fun n => (n.posX, n.posY)) = [(js0_3, 0)] ∧
    inArena smallArena js0_3 0 ∧
    (run smallArena State.empty
      [.create 0 "r1" js0_3 0 90 "V" .undefined, .loadComplete 0,
       .move 0 "r1" 5 0 90 .undefined]).tweens.map (fun t => (t.x1, t.y1)) = [(js0_9, 0)] ∧
    (run smallArena State.empty
      [.create 0 "r1" js0_3 0 90 "V" .undefined, .loadComplete 0,
       .move 0 "r1" 5 0 90 .undefined,
       .update 1050]).children.map (fun n => (n.posX, n.posY))
      = [((4053239664633447 / 4503599627370496), 0)] ∧
    smallArena.scene_scale * smallArena.maxX < (4053239664633447 / 4503599627370496) ∧
    ¬ inArena smallArena (4053239664633447 / 4503599627370496) 0 := by
  have hx := moveTarget_bound
  have hy := moveTarget_origin
  have hl := lerp_overshoots
  have hc : clamp js0_3 0 js0_9 = js0_3 := by norm_num [clamp, js0_3, js0_9]
  have hc0 : clamp 0 0 js0_9 = 0 := by norm_num [clamp, js0_9]
  have hd : distanceSq js0_9 0 js0_3 0 ≠ 0 := by norm_num [distanceSq, js0_3, js0_9]
  simp only [js0_3, js0_9] at hx hy hc hc0 hd
  refine ⟨?_, ?_, ?_, ?_, ?_, ?_⟩
  · norm_num [run, step, create, getObjectByName, State.empty, compatible, smallArena,
      loadComplete, newMesh, js0_3, js0_9, hc, hc0]
  · norm_num [inArena, smallArena, js0_3, js0_9]
  · norm_num [run, step, create, getObjectByName, State.empty, compatible, smallArena,
      loadComplete, newMesh, move, js0_3, js0_9, hc, hc0, hx, hy, hd, ROBOT_PREFIX]
  · norm_num [run, step, create, getObjectByName, State.empty, compatible, smallArena,
      loadComplete, newMesh, move, js0_3, js0_9, hc, hc0, hx, hy, hd, ROBOT_PREFIX, update,
      updateAll, Tween.update, Tween.progress, onUpdate, onComplete, notify, hl, lerp_zero]
  · norm_num [smallArena, js0_9]
  · norm_num [inArena, smallArena, js0_9]

/-- C6 at the failing input: arena 0..0.9, scale 1, `r1` resting at (0.2, 0)
with the rotation of heading 0 and no tween on it.  `move('r1', 5, 0, 58)`
at time 0 starts a tween to the clamped position 0.9 and to the rotation
`(58 - 90) * DEG2RAD`, -0.5585053606381855.  After the frames at 300 and
1050 the tween has completed and is gone, `onUpdate` has copied
`0.2 + (0.9 - 0.2) * 1`, 0.8999999999999999 in doubles, to the position and
`onComplete` has copied the interpolated heading, -0.5585053606381853, to
the rotation: neither is the target. -/
theorem completed_move_misses_target :
    (move smallArena 0 ⟨[restingRobot], [], [], 1⟩ "r1" 5 0 58
      .undefined).state.tweens.map (fun t => (t.x1, t.y1, t.h1))
      = [(js0_9, 0, (58 - 90) * jsDEG2RAD)] ∧
    (run smallArena (move smallArena 0 ⟨[restingRobot], [], [], 1⟩ "r1" 5 0 58
        .undefined).state [.update 300, .update 1050]).children.map
        (fun n => (n.posX, n.posY, n.rotY))
      = [((2026619832316723 / 2251799813685248), 0, (-(628821133513639 / 1125899906842624)))] ∧
    (run smallArena (move smallArena 0 ⟨[restingRobot], [], [], 1⟩ "r1" 5 0 58
        .undefined).state [.update 300, .update 1050]).tweens = [] ∧
    (2026619832316723 / 2251799813685248) ≠ js0_9 ∧
    (-(628821133513639 / 1125899906842624)) ≠ (58 - 90) * jsDEG2RAD := by
  have hx := moveTarget_bound
  have hy := moveTarget_origin
  have hlx := lerp_undershoots
  have hlh := lerp_misses_rotation
  have hname : ("robot_" ++ "r1" : String) = "robot_r1" := by decide
  have hd : distanceSq js0_9 0 js0_2 0 ≠ 0 := by norm_num [distanceSq, js0_2, js0_9]
  simp only [js0_2, js0_9] at hx hy hd
  refine ⟨?_, ?_, ?_, ?_, ?_⟩
  · norm_num [move, getObjectByName, restingRobot, smallArena, js0_2, js0_9, jsDEG2RAD,
      jsRotationOfHeading0, hx, hy, hd, ROBOT_PREFIX, hname]
  · norm_num [run, step, move, getObjectByName, restingRobot, smallArena, js0_2, js0_9,
      jsDEG2RAD, jsRotationOfHeading0, hx, hy, hd, ROBOT_PREFIX, hname, update, updateAll,
      Tween.update, Tween.progress, onUpdate, onComplete, notify, rotationFlag, hlx, hlh,
      lerp_zero]
  · norm_num [run, step, move, getObjectByName, restingRobot, smallArena, js0_2, js0_9,
      jsDEG2RAD, jsRotationOfHeading0, hx, hy, hd, ROBOT_PREFIX, hname, update, updateAll,
      Tween.update, Tween.progress, notify]
  · norm_num [js0_9]
  · norm_num [jsDEG2RAD]

end Robot
